import Mathlib

/-!
Verification of the default keyboard-shortcut module (`src/core/shortcut_items.js`)
of the Blockly repository, together with a model of the shortcut registry and key
serializer it drives.  The registry itself (`Blockly.ShortcutRegistry`) is not part
of the repository snapshot, so its operations are modelled from the specification;
the shortcut catalogue (names, preconditions, callbacks, key bindings) is a direct
translation of the source file.
-/

/-- The four modifier keys of the fixed modifier set recognised by the key
serializer (control, alt, shift, meta). -/
inductive Modifier where
  | shift
  | control
  | alt
  | meta
deriving DecidableEq, Repr

/-- Modelled from the spec: the canonical, modifier-order-independent serialized
form of a physical key-plus-modifiers combination.  The primary key code plus one
flag per member of the fixed modifier set is exactly the information the spec
requires the serializer to preserve (§4.1). -/
structure SerializedKey where
  key : Nat
  shift : Bool
  control : Bool
  alt : Bool
  meta : Bool
deriving DecidableEq, Repr

/-- Modelled from the spec: `createSerializedKey(primaryKey, modifiers)` —
a pure function from a primary key code and an unordered collection of modifiers
to the canonical serialized key.  Each flag records membership of the
corresponding modifier in the collection, so argument order cannot matter. -/
def createSerializedKey (primaryKey : Nat) (modifiers : List Modifier) : SerializedKey :=
  { key := primaryKey
    shift := modifiers.contains Modifier.shift
    control := modifiers.contains Modifier.control
    alt := modifiers.contains Modifier.alt
    meta := modifiers.contains Modifier.meta }

/-- Key codes used by the default shortcut set (values of
`Blockly.utils.KeyCodes`). -/
def KeyCodes.ESC : Nat := 27

def KeyCodes.DELETE : Nat := 46

def KeyCodes.BACKSPACE : Nat := 8

def KeyCodes.C : Nat := 67

def KeyCodes.X : Nat := 88

def KeyCodes.V : Nat := 86

def KeyCodes.Z : Nat := 90

def KeyCodes.Y : Nat := 89

/-- The currently selected item of the editor, as seen through the queries the
shortcut preconditions use: `isDeletable()`, `isMovable()`, and whether its
workspace is a flyout. -/
structure SelectedItem where
  deletable : Bool
  movable : Bool
  inFlyout : Bool
deriving DecidableEq, Repr

/-- The editor context a precondition or callback observes: the workspace
read-only flag (`workspace.options.readOnly`), whether a gesture is in progress
(`Blockly.Gesture.inProgress()`), the current selection (`Blockly.selected`),
and the result the clipboard service reports for a paste
(`Blockly.clipboard.paste()`). -/
structure Context where
  readOnly : Bool
  gestureInProgress : Bool
  selected : Option SelectedItem
  pasteSucceeds : Bool
deriving DecidableEq, Repr

/-- Observable actions a callback performs on its external collaborators, in the
order it performs them. -/
inductive Effect where
  | preventDefault
  | hideChaff
  | copyToClipboard
  | deleteBlock
  | undo (redo : Bool)
  | paste
deriving DecidableEq, Repr

/-- What a callback invocation produces: whether it consumed the event
(its boolean return value) and the ordered effects it performed. -/
structure CallbackResult where
  handled : Bool
  effects : List Effect
deriving DecidableEq, Repr

/-- A registrable shortcut: unique name, eligibility precondition, and
callback. -/
structure KeyboardShortcut where
  name : String
  preconditionFn : Context → Bool
  callback : Context → CallbackResult

/-- Modelled from the spec: the registry state — `shortcuts : name → Shortcut`
and `keyMap : serializedKey → ordered list of name`, both as association
lists. -/
structure Registry where
  shortcuts : List (String × KeyboardShortcut)
  keyMap : List (SerializedKey × List String)

/-- Modelled from the spec: the registry error taxonomy relevant here —
binding a key to a name with no corresponding registered shortcut (§7a). -/
inductive RegistryError where
  | shortcutNotRegistered (name : String)
deriving DecidableEq, Repr

/-- The empty registry a fresh editor instance starts from. -/
def emptyRegistry : Registry := { shortcuts := [], keyMap := [] }

/-- Look a name up in the shortcuts association list. -/
def lookupName : List (String × KeyboardShortcut) → String → Option KeyboardShortcut
  | [], _ => none
  | (m, t) :: rest, n => if m == n then some t else lookupName rest n

/-- Insert or replace the entry for a name in the shortcuts association list,
keeping its position when it already exists. -/
def setName : List (String × KeyboardShortcut) → String → KeyboardShortcut →
    List (String × KeyboardShortcut)
  | [], n, s => [(n, s)]
  | (m, t) :: rest, n, s =>
    if m == n then (m, s) :: rest else (m, t) :: setName rest n s

/-- The ordered candidate list bound to a serialized key (empty when the key has
no entry). -/
def keyMapGet : List (SerializedKey × List String) → SerializedKey → List String
  | [], _ => []
  | (k, ns) :: rest, sk => if k == sk then ns else keyMapGet rest sk

/-- Replace the candidate list bound to a serialized key, creating the entry if
absent. -/
def keyMapSet : List (SerializedKey × List String) → SerializedKey → List String →
    List (SerializedKey × List String)
  | [], sk, ns => [(sk, ns)]
  | (k, old) :: rest, sk, ns =>
    if k == sk then (k, ns) :: rest else (k, old) :: keyMapSet rest sk ns

/-- Modelled from the spec: `register(shortcut)` inserts or replaces the entry
under `shortcut.name`; no error on replace (overwrite-on-register policy,
§4.2). -/
def registerOp (r : Registry) (s : KeyboardShortcut) : Registry :=
  { r with shortcuts := setName r.shortcuts s.name s }

/-- Modelled from the spec: `addKeyMapping(serializedKey, name)` appends `name`
to the ordered list for `serializedKey`, creating the list if absent, and fails
with `ShortcutNotRegisteredError` when `name` is not currently registered.
Per the idempotence requirement on the installer (§3, §4.3: re-binding must not
duplicate entries in a key's candidate list), a name already present in the
list is not appended again. -/
def addKeyMapping (r : Registry) (sk : SerializedKey) (n : String) :
    Except RegistryError Registry :=
  match lookupName r.shortcuts n with
  | none => Except.error (RegistryError.shortcutNotRegistered n)
  | some _ =>
    let current := keyMapGet r.keyMap sk
    if current.contains n then Except.ok r
    else Except.ok { r with keyMap := keyMapSet r.keyMap sk (current ++ [n]) }

/-- Modelled from the spec: the dispatch loop of `resolve` over a candidate
list — skip names that are unregistered or whose precondition fails, invoke the
first eligible callback, stop on a true return, continue past a false one
(§4.2 steps 2–5).  Returns the handling name (`none` = "unhandled") together
with the effects of every callback actually invoked, in order. -/
def resolveList (r : Registry) (ctx : Context) :
    List String → Option String × List Effect
  | [] => (none, [])
  | n :: rest =>
    match lookupName r.shortcuts n with
    | none => resolveList r ctx rest
    | some s =>
      if s.preconditionFn ctx then
        let res := s.callback ctx
        if res.handled then (some n, res.effects)
        else
          let tail := resolveList r ctx rest
          (tail.fst, res.effects ++ tail.snd)
      else resolveList r ctx rest

/-- Modelled from the spec: `resolve(serializedKey, context, event)` — look up
the ordered candidate list for the key (absent list = "unhandled") and run the
dispatch loop over it (§4.2 step 1). -/
def resolve (r : Registry) (sk : SerializedKey) (ctx : Context) :
    Option String × List Effect :=
  resolveList r ctx (keyMapGet r.keyMap sk)

/-- `names`: the stable string constants for the seven default actions. -/
def names.ESCAPE : String := "escape"

def names.DELETE : String := "delete"

def names.COPY : String := "copy"

def names.CUT : String := "cut"

def names.PASTE : String := "paste"

def names.UNDO : String := "undo"

def names.REDO : String := "redo"

/-- The `escapeAction` shortcut of `registerEscape`: eligible when the
workspace is not read-only; hides chaff and returns true. -/
def escapeAction : KeyboardShortcut :=
  { name := names.ESCAPE
    preconditionFn := fun workspace => !workspace.readOnly
    callback := fun _ => { handled := true, effects := [Effect.hideChaff] } }

/-- The `deleteShortcut` of `registerDelete`: eligible when the workspace is
not read-only and a deletable item is selected; the callback prevents the
default browser action first, returns false while a gesture is in progress, and
otherwise deletes the selected block and returns true. -/
def deleteShortcut : KeyboardShortcut :=
  { name := names.DELETE
    preconditionFn := fun workspace =>
      !workspace.readOnly &&
        (match workspace.selected with
          | none => false
          | some sel => sel.deletable)
    callback := fun ctx =>
      if ctx.gestureInProgress then
        { handled := false, effects := [Effect.preventDefault] }
      else
        { handled := true, effects := [Effect.preventDefault, Effect.deleteBlock] } }

/-- The `copyShortcut` of `registerCopy`: eligible when not read-only, no
gesture is in progress, and the selection is deletable and movable; the
callback prevents the default, hides chaff, copies the selection and returns
true. -/
def copyShortcut : KeyboardShortcut :=
  { name := names.COPY
    preconditionFn := fun workspace =>
      !workspace.readOnly && !workspace.gestureInProgress &&
        (match workspace.selected with
          | none => false
          | some sel => sel.deletable && sel.movable)
    callback := fun _ =>
      { handled := true
        effects := [Effect.preventDefault, Effect.hideChaff, Effect.copyToClipboard] } }

/-- The `cutShortcut` of `registerCut`: eligible when not read-only, no gesture
in progress, and the selection is deletable, movable and not in a flyout
workspace; the callback copies the selection, deletes it, and returns true. -/
def cutShortcut : KeyboardShortcut :=
  { name := names.CUT
    preconditionFn := fun workspace =>
      !workspace.readOnly && !workspace.gestureInProgress &&
        (match workspace.selected with
          | none => false
          | some sel => sel.deletable && sel.movable && !sel.inFlyout)
    callback := fun _ =>
      { handled := true
        effects := [Effect.copyToClipboard, Effect.deleteBlock] } }

/-- The `pasteShortcut` of `registerPaste`: eligible when not read-only and no
gesture in progress; the callback returns whatever `Blockly.clipboard.paste()`
reports. -/
def pasteShortcut : KeyboardShortcut :=
  { name := names.PASTE
    preconditionFn := fun workspace =>
      !workspace.readOnly && !workspace.gestureInProgress
    callback := fun ctx =>
      { handled := ctx.pasteSucceeds, effects := [Effect.paste] } }

/-- The `undoShortcut` of `registerUndo`: eligible when not read-only and no
gesture in progress; the callback hides chaff, calls `workspace.undo(false)`
and returns true. -/
def undoShortcut : KeyboardShortcut :=
  { name := names.UNDO
    preconditionFn := fun workspace =>
      !workspace.readOnly && !workspace.gestureInProgress
    callback := fun _ =>
      { handled := true, effects := [Effect.hideChaff, Effect.undo false] } }

/-- The `redoShortcut` of `registerRedo`: eligible when no gesture is in
progress and the workspace is not read-only; the callback hides chaff, calls
`workspace.undo(true)` and returns true. -/
def redoShortcut : KeyboardShortcut :=
  { name := names.REDO
    preconditionFn := fun workspace =>
      !workspace.gestureInProgress && !workspace.readOnly
    callback := fun _ =>
      { handled := true, effects := [Effect.hideChaff, Effect.undo true] } }

/-- A bare key code with no modifiers, as passed directly to `addKeyMapping`
(e.g. `KeyCodes.ESC`). -/
def bareKey (k : Nat) : SerializedKey := createSerializedKey k []

/-- `registerEscape`: register the escape action and bind it to Escape. -/
def registerEscape (r : Registry) : Except RegistryError Registry := do
  let r := registerOp r escapeAction
  addKeyMapping r (bareKey KeyCodes.ESC) escapeAction.name

/-- `registerDelete`: register the delete shortcut and bind it to Delete and
Backspace. -/
def registerDelete (r : Registry) : Except RegistryError Registry := do
  let r := registerOp r deleteShortcut
  let r ← addKeyMapping r (bareKey KeyCodes.DELETE) deleteShortcut.name
  addKeyMapping r (bareKey KeyCodes.BACKSPACE) deleteShortcut.name

/-- `registerCopy`: register the copy shortcut and bind it to ctrl+C, alt+C and
meta+C. -/
def registerCopy (r : Registry) : Except RegistryError Registry := do
  let r := registerOp r copyShortcut
  let ctrlC := createSerializedKey KeyCodes.C [Modifier.control]
  let r ← addKeyMapping r ctrlC copyShortcut.name
  let altC := createSerializedKey KeyCodes.C [Modifier.alt]
  let r ← addKeyMapping r altC copyShortcut.name
  let metaC := createSerializedKey KeyCodes.C [Modifier.meta]
  addKeyMapping r metaC copyShortcut.name

/-- `registerCut`: register the cut shortcut and bind it to ctrl+X, alt+X and
meta+X. -/
def registerCut (r : Registry) : Except RegistryError Registry := do
  let r := registerOp r cutShortcut
  let ctrlX := createSerializedKey KeyCodes.X [Modifier.control]
  let r ← addKeyMapping r ctrlX cutShortcut.name
  let altX := createSerializedKey KeyCodes.X [Modifier.alt]
  let r ← addKeyMapping r altX cutShortcut.name
  let metaX := createSerializedKey KeyCodes.X [Modifier.meta]
  addKeyMapping r metaX cutShortcut.name

/-- `registerPaste`: register the paste shortcut and bind it to ctrl+V, alt+V
and meta+V. -/
def registerPaste (r : Registry) : Except RegistryError Registry := do
  let r := registerOp r pasteShortcut
  let ctrlV := createSerializedKey KeyCodes.V [Modifier.control]
  let r ← addKeyMapping r ctrlV pasteShortcut.name
  let altV := createSerializedKey KeyCodes.V [Modifier.alt]
  let r ← addKeyMapping r altV pasteShortcut.name
  let metaV := createSerializedKey KeyCodes.V [Modifier.meta]
  addKeyMapping r metaV pasteShortcut.name

/-- `registerUndo`: register the undo shortcut and bind it to ctrl+Z, alt+Z and
meta+Z. -/
def registerUndo (r : Registry) : Except RegistryError Registry := do
  let r := registerOp r undoShortcut
  let ctrlZ := createSerializedKey KeyCodes.Z [Modifier.control]
  let r ← addKeyMapping r ctrlZ undoShortcut.name
  let altZ := createSerializedKey KeyCodes.Z [Modifier.alt]
  let r ← addKeyMapping r altZ undoShortcut.name
  let metaZ := createSerializedKey KeyCodes.Z [Modifier.meta]
  addKeyMapping r metaZ undoShortcut.name

/-- `registerRedo`: register the redo shortcut and bind it to ctrl+shift+Z,
alt+shift+Z, meta+shift+Z and ctrl+Y. -/
def registerRedo (r : Registry) : Except RegistryError Registry := do
  let r := registerOp r redoShortcut
  let ctrlShiftZ := createSerializedKey KeyCodes.Z [Modifier.shift, Modifier.control]
  let r ← addKeyMapping r ctrlShiftZ redoShortcut.name
  let altShiftZ := createSerializedKey KeyCodes.Z [Modifier.shift, Modifier.alt]
  let r ← addKeyMapping r altShiftZ redoShortcut.name
  let metaShiftZ := createSerializedKey KeyCodes.Z [Modifier.shift, Modifier.meta]
  let r ← addKeyMapping r metaShiftZ redoShortcut.name
  let ctrlY := createSerializedKey KeyCodes.Y [Modifier.control]
  addKeyMapping r ctrlY redoShortcut.name

/-- `registerDefaultShortcuts`: install the seven default shortcuts, in the
order of the source. -/
def registerDefaultShortcuts (r : Registry) : Except RegistryError Registry := do
  let r ← registerEscape r
  let r ← registerDelete r
  let r ← registerCopy r
  let r ← registerCut r
  let r ← registerPaste r
  let r ← registerUndo r
  registerRedo r

/-- The registry obtained by installing the default shortcut set into a fresh
registry (the module runs `registerDefaultShortcuts()` at load time). -/
def installedRegistry : Registry :=
  match registerDefaultShortcuts emptyRegistry with
  | Except.ok r => r
  | Except.error _ => emptyRegistry

/-- Whether a single named candidate would consume the event: it is currently
registered, its precondition holds on the context, and its callback returns
true. -/
def consumesEvent (r : Registry) (ctx : Context) (n : String) : Bool :=
  match lookupName r.shortcuts n with
  | none => false
  | some s => s.preconditionFn ctx && (s.callback ctx).handled

theorem lookupName_setName_self (l : List (String × KeyboardShortcut)) (n : String)
    (s : KeyboardShortcut) : lookupName (setName l n s) n = some s := by
  induction l with
  | nil => simp [setName, lookupName]
  | cons p rest ih =>
    obtain ⟨m, t⟩ := p
    by_cases h : m = n
    · simp [setName, lookupName, h]
    · simp [setName, lookupName, h, ih]

theorem addKeyMapping_ok (r : Registry) (sk : SerializedKey) (n : String)
    (s : KeyboardShortcut) (h : lookupName r.shortcuts n = some s) :
    ∃ r2, addKeyMapping r sk n = Except.ok r2 ∧ r2.shortcuts = r.shortcuts := by
  simp only [addKeyMapping, h]
  split
  · exact ⟨r, rfl, rfl⟩
  · exact ⟨_, rfl, rfl⟩

theorem resolveList_fst_eq_find (r : Registry) (ctx : Context) (l : List String) :
    (resolveList r ctx l).fst = l.find? (consumesEvent r ctx) := by
  induction l with
  | nil => rfl
  | cons n rest ih =>
    cases hl : lookupName r.shortcuts n with
    | none =>
      have hc : consumesEvent r ctx n = false := by simp [consumesEvent, hl]
      simp [resolveList, hl, List.find?, hc, ih]
    | some s =>
      cases hp : s.preconditionFn ctx with
      | false =>
        have hc : consumesEvent r ctx n = false := by simp [consumesEvent, hl, hp]
        simp [resolveList, hl, hp, List.find?, hc, ih]
      | true =>
        cases hh : (s.callback ctx).handled with
        | false =>
          have hc : consumesEvent r ctx n = false := by simp [consumesEvent, hl, hp, hh]
          simp [resolveList, hl, hp, hh, List.find?, hc, ih]
        | true =>
          have hc : consumesEvent r ctx n = true := by simp [consumesEvent, hl, hp, hh]
          simp [resolveList, hl, hp, hh, List.find?, hc]

/-- C1: for every serialized key, context and event, resolution tries the
bound names strictly in key-binding insertion order, skipping candidates whose
precondition fails or which are no longer registered, stopping at the first
candidate whose callback returns true, and yielding "unhandled" when no
candidate both passes its precondition and returns true.  Formally the
resolution outcome is exactly the first name of the candidate list (in stored
order) that consumes the event, and it is "unhandled" exactly when no bound
name consumes the event. -/
theorem resolve_first_eligible_consumer (r : Registry) (sk : SerializedKey) (ctx : Context) :
    (resolve r sk ctx).fst = (keyMapGet r.keyMap sk).find? (consumesEvent r ctx) ∧
    ((resolve r sk ctx).fst = none ↔
      ∀ n ∈ keyMapGet r.keyMap sk, consumesEvent r ctx n = false) := by
  have h : (resolve r sk ctx).fst = (keyMapGet r.keyMap sk).find? (consumesEvent r ctx) :=
    resolveList_fst_eq_find r ctx (keyMapGet r.keyMap sk)
  refine ⟨h, ?_⟩
  rw [h, List.find?_eq_none]
  simp

/-- C2: running the default-shortcut installer a second time on a registry that
already has the defaults installed leaves the registry in exactly the same
final state as after the first run, and no key's candidate list holds duplicate
entries. -/
theorem registerDefaultShortcuts_idempotent :
    registerDefaultShortcuts emptyRegistry = Except.ok installedRegistry ∧
    registerDefaultShortcuts installedRegistry = Except.ok installedRegistry ∧
    ∀ p ∈ installedRegistry.keyMap, p.snd.Nodup :=
  ⟨rfl, rfl, by decide⟩

theorem contains_eq_of_mem_iff {M1 M2 : List Modifier}
    (h : ∀ m, m ∈ M1 ↔ m ∈ M2) (m : Modifier) : M1.contains m = M2.contains m := by
  show List.elem m M1 = List.elem m M2
  by_cases hm : m ∈ M1
  · rw [List.elem_iff.mpr hm, List.elem_iff.mpr ((h m).mp hm)]
  · have h2 : ¬ m ∈ M2 := fun c => hm ((h m).mpr c)
    have e1 : List.elem m M1 = false := by
      rw [← Bool.not_eq_true]; exact fun c => hm (List.elem_iff.mp c)
    have e2 : List.elem m M2 = false := by
      rw [← Bool.not_eq_true]; exact fun c => h2 (List.elem_iff.mp c)
    rw [e1, e2]

theorem mem_iff_of_contains_eq {M1 M2 : List Modifier} {m : Modifier}
    (h : M1.contains m = M2.contains m) : m ∈ M1 ↔ m ∈ M2 := by
  have h2 : List.elem m M1 = List.elem m M2 := h
  rw [← List.elem_iff, ← List.elem_iff, h2]

/-- C3: serialization is canonical and injective — set-equal modifier
collections with the same primary key serialize identically, and conversely
equal serializations force the same primary key and set-equal modifier
collections (so any change of key or of modifier set changes the result). -/
theorem createSerializedKey_canonical_and_injective :
    (∀ (k : Nat) (M1 M2 : List Modifier), (∀ m, m ∈ M1 ↔ m ∈ M2) →
      createSerializedKey k M1 = createSerializedKey k M2) ∧
    (∀ (k1 k2 : Nat) (M1 M2 : List Modifier),
      createSerializedKey k1 M1 = createSerializedKey k2 M2 →
      k1 = k2 ∧ ∀ m, m ∈ M1 ↔ m ∈ M2) := by
  constructor
  · intro k M1 M2 h
    unfold createSerializedKey
    rw [contains_eq_of_mem_iff h, contains_eq_of_mem_iff h,
      contains_eq_of_mem_iff h, contains_eq_of_mem_iff h]
  · intro k1 k2 M1 M2 h
    simp only [createSerializedKey, SerializedKey.mk.injEq] at h
    obtain ⟨hk, hs, hc, ha, hm⟩ := h
    refine ⟨hk, fun m => ?_⟩
    cases m
    · exact mem_iff_of_contains_eq hs
    · exact mem_iff_of_contains_eq hc
    · exact mem_iff_of_contains_eq ha
    · exact mem_iff_of_contains_eq hm

/-- Witness for C3 at a concrete input: the two argument orders of
ctrl+shift serialize Z identically. -/
theorem createSerializedKey_canonical_and_injective_witness :
    createSerializedKey 90 [Modifier.shift, Modifier.control] =
      createSerializedKey 90 [Modifier.control, Modifier.shift] :=
  createSerializedKey_canonical_and_injective.1 90 _ _ (by intro m; cases m <;> simp)

/-- C4: binding a key to a name with no currently registered shortcut fails
with the ShortcutNotRegisteredError condition; no updated registry is produced,
so the key map is left unmodified. -/
theorem addKeyMapping_unregistered_error (r : Registry) (sk : SerializedKey) (n : String)
    (h : lookupName r.shortcuts n = none) :
    addKeyMapping r sk n = Except.error (RegistryError.shortcutNotRegistered n) := by
  simp only [addKeyMapping, h]

/-- Witness for C4 at a concrete input: binding Escape to the name "copy" in an
empty registry fails. -/
theorem addKeyMapping_unregistered_error_witness :
    addKeyMapping emptyRegistry (bareKey KeyCodes.ESC) names.COPY =
      Except.error (RegistryError.shortcutNotRegistered names.COPY) :=
  addKeyMapping_unregistered_error emptyRegistry (bareKey KeyCodes.ESC) names.COPY rfl

/-- C5: the copy precondition holds exactly when the workspace is not
read-only, no gesture is in progress, and the selection is deletable and
movable; and with a selected item that is not movable, dispatching ctrl+C on
the installed defaults yields "unhandled". -/
theorem copy_precondition_and_ctrlC_unhandled :
    (∀ ctx : Context, copyShortcut.preconditionFn ctx = true ↔
      ctx.readOnly = false ∧ ctx.gestureInProgress = false ∧
      ∃ sel, ctx.selected = some sel ∧ sel.deletable = true ∧ sel.movable = true) ∧
    (∀ (ctx : Context) (sel : SelectedItem), ctx.selected = some sel →
      sel.movable = false →
      (resolve installedRegistry (createSerializedKey KeyCodes.C [Modifier.control]) ctx).fst =
        none) := by
  constructor
  · intro ctx
    cases hsel : ctx.selected with
    | none => simp [copyShortcut, hsel]
    | some sel => simp [copyShortcut, hsel, and_assoc]
  · intro ctx sel hsel hmov
    have hk : keyMapGet installedRegistry.keyMap
        (createSerializedKey KeyCodes.C [Modifier.control]) = [names.COPY] := rfl
    have hl : lookupName installedRegistry.shortcuts names.COPY = some copyShortcut := rfl
    rw [resolve, hk]
    simp [resolveList, hl, copyShortcut, hsel, hmov]

/-- Witness for C5 at a concrete input: a deletable but unmovable selection on
a writable, gesture-free workspace leaves ctrl+C unhandled. -/
theorem copy_precondition_and_ctrlC_unhandled_witness :
    (resolve installedRegistry (createSerializedKey KeyCodes.C [Modifier.control])
      { readOnly := false, gestureInProgress := false,
        selected := some { deletable := true, movable := false, inFlyout := false },
        pasteSucceeds := false }).fst = none :=
  copy_precondition_and_ctrlC_unhandled.2 _ _ rfl rfl

/-- C6: the delete shortcut is bound to both Delete and Backspace; its
precondition holds exactly when the workspace is not read-only and a deletable
item is selected; its callback prevents the default first and then either
returns false without deleting (gesture in progress) or deletes the selection
and returns true. -/
theorem delete_shortcut_spec :
    (names.DELETE ∈ keyMapGet installedRegistry.keyMap (bareKey KeyCodes.DELETE) ∧
     names.DELETE ∈ keyMapGet installedRegistry.keyMap (bareKey KeyCodes.BACKSPACE)) ∧
    (∀ ctx : Context, deleteShortcut.preconditionFn ctx = true ↔
      ctx.readOnly = false ∧ ∃ sel, ctx.selected = some sel ∧ sel.deletable = true) ∧
    (∀ ctx : Context, deleteShortcut.callback ctx =
      if ctx.gestureInProgress then
        { handled := false, effects := [Effect.preventDefault] }
      else
        { handled := true, effects := [Effect.preventDefault, Effect.deleteBlock] }) := by
  refine ⟨⟨by decide, by decide⟩, ?_, ?_⟩
  · intro ctx
    cases hsel : ctx.selected with
    | none => simp [deleteShortcut, hsel]
    | some sel => simp [deleteShortcut, hsel]
  · intro ctx
    cases h : ctx.gestureInProgress <;> simp [deleteShortcut, h]

/-- C7: on a writable workspace with no gesture in progress, ctrl+Z, alt+Z and
meta+Z resolve to "undo" and ctrl+shift+Z, alt+shift+Z, meta+shift+Z and
ctrl+Y resolve to "redo"; the undo callback hides chaff, calls
`workspace.undo(false)` and returns true, and the redo callback hides chaff,
calls `workspace.undo(true)` and returns true. -/
theorem undo_redo_resolution (ctx : Context)
    (hro : ctx.readOnly = false) (hg : ctx.gestureInProgress = false) :
    ((resolve installedRegistry (createSerializedKey KeyCodes.Z [Modifier.control]) ctx).fst =
        some names.UNDO ∧
     (resolve installedRegistry (createSerializedKey KeyCodes.Z [Modifier.alt]) ctx).fst =
        some names.UNDO ∧
     (resolve installedRegistry (createSerializedKey KeyCodes.Z [Modifier.meta]) ctx).fst =
        some names.UNDO) ∧
    ((resolve installedRegistry
        (createSerializedKey KeyCodes.Z [Modifier.shift, Modifier.control]) ctx).fst =
        some names.REDO ∧
     (resolve installedRegistry
        (createSerializedKey KeyCodes.Z [Modifier.shift, Modifier.alt]) ctx).fst =
        some names.REDO ∧
     (resolve installedRegistry
        (createSerializedKey KeyCodes.Z [Modifier.shift, Modifier.meta]) ctx).fst =
        some names.REDO ∧
     (resolve installedRegistry (createSerializedKey KeyCodes.Y [Modifier.control]) ctx).fst =
        some names.REDO) ∧
    undoShortcut.callback ctx =
      { handled := true, effects := [Effect.hideChaff, Effect.undo false] } ∧
    redoShortcut.callback ctx =
      { handled := true, effects := [Effect.hideChaff, Effect.undo true] } := by
  obtain ⟨ro, g, sel, p⟩ := ctx
  simp only at hro hg
  subst hro
  subst hg
  exact ⟨⟨rfl, rfl, rfl⟩, ⟨rfl, rfl, rfl, rfl⟩, rfl, rfl⟩

/-- Witness for C7 at a concrete input: a writable, gesture-free context with
no selection. -/
theorem undo_redo_resolution_witness :
    (resolve installedRegistry (createSerializedKey KeyCodes.Z [Modifier.control])
      { readOnly := false, gestureInProgress := false, selected := none,
        pasteSucceeds := false }).fst = some names.UNDO :=
  (undo_redo_resolution
    { readOnly := false, gestureInProgress := false, selected := none,
      pasteSucceeds := false } rfl rfl).1.1

/-- C8: the cut shortcut is bound to ctrl+X, alt+X and meta+X; its precondition
holds exactly when the workspace is not read-only, no gesture is in progress,
and the selection is deletable, movable and not in a flyout; its callback
copies the selection to the clipboard, then deletes it, and returns true. -/
theorem cut_shortcut_spec :
    (keyMapGet installedRegistry.keyMap (createSerializedKey KeyCodes.X [Modifier.control]) =
        [names.CUT] ∧
     keyMapGet installedRegistry.keyMap (createSerializedKey KeyCodes.X [Modifier.alt]) =
        [names.CUT] ∧
     keyMapGet installedRegistry.keyMap (createSerializedKey KeyCodes.X [Modifier.meta]) =
        [names.CUT]) ∧
    (∀ ctx : Context, cutShortcut.preconditionFn ctx = true ↔
      ctx.readOnly = false ∧ ctx.gestureInProgress = false ∧
      ∃ sel, ctx.selected = some sel ∧ sel.deletable = true ∧ sel.movable = true ∧
        sel.inFlyout = false) ∧
    (∀ ctx : Context, cutShortcut.callback ctx =
      { handled := true, effects := [Effect.copyToClipboard, Effect.deleteBlock] }) := by
  refine ⟨⟨rfl, rfl, rfl⟩, ?_, fun ctx => rfl⟩
  intro ctx
  cases hsel : ctx.selected with
  | none => simp [cutShortcut, hsel]
  | some sel => simp [cutShortcut, hsel, and_assoc]

/-- C10: the escape, copy, cut, undo and redo callbacks return true on every
context; the delete callback returns true exactly when no gesture is in
progress; and the paste callback returns exactly what the clipboard paste
operation reports. -/
theorem default_callback_return_values :
    (∀ ctx : Context, (escapeAction.callback ctx).handled = true) ∧
    (∀ ctx : Context, (copyShortcut.callback ctx).handled = true) ∧
    (∀ ctx : Context, (cutShortcut.callback ctx).handled = true) ∧
    (∀ ctx : Context, (undoShortcut.callback ctx).handled = true) ∧
    (∀ ctx : Context, (redoShortcut.callback ctx).handled = true) ∧
    (∀ ctx : Context, (deleteShortcut.callback ctx).handled = !ctx.gestureInProgress) ∧
    (∀ ctx : Context, (pasteShortcut.callback ctx).handled = ctx.pasteSucceeds) := by
  refine ⟨fun ctx => rfl, fun ctx => rfl, fun ctx => rfl, fun ctx => rfl, fun ctx => rfl,
    ?_, fun ctx => rfl⟩
  intro ctx
  cases h : ctx.gestureInProgress <;> simp [deleteShortcut, h]

theorem ok_bind_eq {ε α β : Type} (a : α) (f : α → Except ε β) :
    (Except.ok a >>= f) = f a := rfl

theorem registerEscape_ok (r : Registry) : ∃ r2, registerEscape r = Except.ok r2 := by
  obtain ⟨r2, e, _⟩ := addKeyMapping_ok (registerOp r escapeAction) (bareKey KeyCodes.ESC)
    escapeAction.name escapeAction
    (lookupName_setName_self r.shortcuts escapeAction.name escapeAction)
  exact ⟨r2, e⟩

theorem registerDelete_ok (r : Registry) : ∃ r2, registerDelete r = Except.ok r2 := by
  have h0 : lookupName (registerOp r deleteShortcut).shortcuts deleteShortcut.name =
      some deleteShortcut :=
    lookupName_setName_self r.shortcuts deleteShortcut.name deleteShortcut
  obtain ⟨r1, e1, s1⟩ := addKeyMapping_ok (registerOp r deleteShortcut)
    (bareKey KeyCodes.DELETE) deleteShortcut.name deleteShortcut h0
  obtain ⟨r2, e2, _⟩ := addKeyMapping_ok r1 (bareKey KeyCodes.BACKSPACE)
    deleteShortcut.name deleteShortcut (by rw [s1]; exact h0)
  exact ⟨r2, by simp [registerDelete, e1, e2, ok_bind_eq]⟩

theorem registerCopy_ok (r : Registry) : ∃ r2, registerCopy r = Except.ok r2 := by
  have h0 : lookupName (registerOp r copyShortcut).shortcuts copyShortcut.name =
      some copyShortcut :=
    lookupName_setName_self r.shortcuts copyShortcut.name copyShortcut
  obtain ⟨r1, e1, s1⟩ := addKeyMapping_ok (registerOp r copyShortcut)
    (createSerializedKey KeyCodes.C [Modifier.control]) copyShortcut.name copyShortcut h0
  obtain ⟨r2, e2, s2⟩ := addKeyMapping_ok r1
    (createSerializedKey KeyCodes.C [Modifier.alt]) copyShortcut.name copyShortcut
    (by rw [s1]; exact h0)
  obtain ⟨r3, e3, _⟩ := addKeyMapping_ok r2
    (createSerializedKey KeyCodes.C [Modifier.meta]) copyShortcut.name copyShortcut
    (by rw [s2, s1]; exact h0)
  exact ⟨r3, by simp [registerCopy, e1, e2, e3, ok_bind_eq]⟩

theorem registerCut_ok (r : Registry) : ∃ r2, registerCut r = Except.ok r2 := by
  have h0 : lookupName (registerOp r cutShortcut).shortcuts cutShortcut.name =
      some cutShortcut :=
    lookupName_setName_self r.shortcuts cutShortcut.name cutShortcut
  obtain ⟨r1, e1, s1⟩ := addKeyMapping_ok (registerOp r cutShortcut)
    (createSerializedKey KeyCodes.X [Modifier.control]) cutShortcut.name cutShortcut h0
  obtain ⟨r2, e2, s2⟩ := addKeyMapping_ok r1
    (createSerializedKey KeyCodes.X [Modifier.alt]) cutShortcut.name cutShortcut
    (by rw [s1]; exact h0)
  obtain ⟨r3, e3, _⟩ := addKeyMapping_ok r2
    (createSerializedKey KeyCodes.X [Modifier.meta]) cutShortcut.name cutShortcut
    (by rw [s2, s1]; exact h0)
  exact ⟨r3, by simp [registerCut, e1, e2, e3, ok_bind_eq]⟩

theorem registerPaste_ok (r : Registry) : ∃ r2, registerPaste r = Except.ok r2 := by
  have h0 : lookupName (registerOp r pasteShortcut).shortcuts pasteShortcut.name =
      some pasteShortcut :=
    lookupName_setName_self r.shortcuts pasteShortcut.name pasteShortcut
  obtain ⟨r1, e1, s1⟩ := addKeyMapping_ok (registerOp r pasteShortcut)
    (createSerializedKey KeyCodes.V [Modifier.control]) pasteShortcut.name pasteShortcut h0
  obtain ⟨r2, e2, s2⟩ := addKeyMapping_ok r1
    (createSerializedKey KeyCodes.V [Modifier.alt]) pasteShortcut.name pasteShortcut
    (by rw [s1]; exact h0)
  obtain ⟨r3, e3, _⟩ := addKeyMapping_ok r2
    (createSerializedKey KeyCodes.V [Modifier.meta]) pasteShortcut.name pasteShortcut
    (by rw [s2, s1]; exact h0)
  exact ⟨r3, by simp [registerPaste, e1, e2, e3, ok_bind_eq]⟩

theorem registerUndo_ok (r : Registry) : ∃ r2, registerUndo r = Except.ok r2 := by
  have h0 : lookupName (registerOp r undoShortcut).shortcuts undoShortcut.name =
      some undoShortcut :=
    lookupName_setName_self r.shortcuts undoShortcut.name undoShortcut
  obtain ⟨r1, e1, s1⟩ := addKeyMapping_ok (registerOp r undoShortcut)
    (createSerializedKey KeyCodes.Z [Modifier.control]) undoShortcut.name undoShortcut h0
  obtain ⟨r2, e2, s2⟩ := addKeyMapping_ok r1
    (createSerializedKey KeyCodes.Z [Modifier.alt]) undoShortcut.name undoShortcut
    (by rw [s1]; exact h0)
  obtain ⟨r3, e3, _⟩ := addKeyMapping_ok r2
    (createSerializedKey KeyCodes.Z [Modifier.meta]) undoShortcut.name undoShortcut
    (by rw [s2, s1]; exact h0)
  exact ⟨r3, by simp [registerUndo, e1, e2, e3, ok_bind_eq]⟩

theorem registerRedo_ok (r : Registry) : ∃ r2, registerRedo r = Except.ok r2 := by
  have h0 : lookupName (registerOp r redoShortcut).shortcuts redoShortcut.name =
      some redoShortcut :=
    lookupName_setName_self r.shortcuts redoShortcut.name redoShortcut
  obtain ⟨r1, e1, s1⟩ := addKeyMapping_ok (registerOp r redoShortcut)
    (createSerializedKey KeyCodes.Z [Modifier.shift, Modifier.control])
    redoShortcut.name redoShortcut h0
  obtain ⟨r2, e2, s2⟩ := addKeyMapping_ok r1
    (createSerializedKey KeyCodes.Z [Modifier.shift, Modifier.alt])
    redoShortcut.name redoShortcut (by rw [s1]; exact h0)
  obtain ⟨r3, e3, s3⟩ := addKeyMapping_ok r2
    (createSerializedKey KeyCodes.Z [Modifier.shift, Modifier.meta])
    redoShortcut.name redoShortcut (by rw [s2, s1]; exact h0)
  obtain ⟨r4, e4, _⟩ := addKeyMapping_ok r3
    (createSerializedKey KeyCodes.Y [Modifier.control])
    redoShortcut.name redoShortcut (by rw [s3, s2, s1]; exact h0)
  exact ⟨r4, by simp [registerRedo, e1, e2, e3, e4, ok_bind_eq]⟩

/-- C9: during a run of the default-shortcut installer, every key mapping is
added only after the register call for the same name, so the installer
succeeds from every starting registry and can never raise the
ShortcutNotRegisteredError condition. -/
theorem installer_never_raises_error (r : Registry) :
    ∃ r2, registerDefaultShortcuts r = Except.ok r2 := by
  obtain ⟨r1, e1⟩ := registerEscape_ok r
  obtain ⟨r2, e2⟩ := registerDelete_ok r1
  obtain ⟨r3, e3⟩ := registerCopy_ok r2
  obtain ⟨r4, e4⟩ := registerCut_ok r3
  obtain ⟨r5, e5⟩ := registerPaste_ok r4
  obtain ⟨r6, e6⟩ := registerUndo_ok r5
  obtain ⟨r7, e7⟩ := registerRedo_ok r6
  exact ⟨r7, by simp [registerDefaultShortcuts, e1, e2, e3, e4, e5, e6, e7, ok_bind_eq]⟩
